import Mathlib

/-!
Verification of the command-dispatch and recent-file bookkeeping layer of
`src/src-tauri/src/commands.rs` (it369/desktop).

The dispatcher code (`load_kdbx`, `create_kdbx`, `save_as_kdbx`, `save_kdbx`,
`save_all_modified_dbs`, `read_app_preference`, and the pass-through
commands) is embedded directly from the source.  Parts of the repository
that the dispatcher calls but that are not in the given source set
(`preference::Preference` with `add_recent_file` / `remove_recent_file`,
`utils::AppState::get_backup_file`, the engine error enum of
`onekeepass_core::db_service` and its conversion to `String`) are modelled
from the specification, each marked as such in its doc comment.

Commands are embedded in state-passing style: a command takes the outcome
of its (opaque) engine call and the current application state, and returns
the transport-level result, the new state, and a trace of the events the
Rust code performs in order (engine call, preference-lock acquire/release).
-/

/-- Modelled from the spec: the `std::io::ErrorKind` classification carried
by a file-I/O engine error; only the not-found kind is distinguished by the
dispatcher, every other kind is behaviourally equivalent. -/
inductive IoErrorKind where
  | notFound
  | permissionDenied
  | otherKind
deriving DecidableEq, Repr

/-- Modelled from the spec: an underlying `std::io::Error`, carrying a
machine-distinguishable kind plus a human-readable message. -/
structure IoError where
  kind : IoErrorKind
  msg : String
deriving DecidableEq, Repr

/-- Modelled from the spec: the structured engine error
(`onekeepass_core::db_service::error::Error`, external to the given source
set).  A tagged union: the file-I/O variant carries a top-level message and
the underlying I/O error; every other engine failure (wrong password,
corrupt file, validation, ...) is represented by the catch-all variant with
its human-readable message. -/
inductive KpError where
  | dbFileIoError (m : String) (ioe : IoError)
  | otherError (m : String)
deriving DecidableEq, Repr

/-- Modelled from the spec: the lossy flattening of a structured engine
error to the single opaque textual error used for transport (the
`From<Error> for String` conversion applied by the `?` operator in
`Ok(r?)`). -/
def KpError.flatten : KpError → String
  | .dbFileIoError m ioe => m ++ ": " ++ ioe.msg
  | .otherError m => m

/-- The transport-level result type of every command:
`pub type Result<T> = std::result::Result<T, String>` — either the typed
success payload or a single string error message. -/
abbrev CmdResult (α : Type) := Except String α

/-- `Ok(r?)`: converts an engine outcome into the transport result,
flattening a structured error to its string form. -/
def flattenResult {α : Type} : Except KpError α → CmdResult α
  | .ok v => .ok v
  | .error e => .error e.flatten

/-- Success payload of load/create/save-as (`kp_service::KdbxLoaded`);
`db_key` is the file path identifying the database. -/
structure KdbxLoaded where
  db_key : String
deriving DecidableEq, Repr

/-- Success payload of save (`kp_service::KdbxSaved`). -/
structure KdbxSaved where
  db_key : String
deriving DecidableEq, Repr

/-- Per-item outcome of a save-all batch (`kp_service::SaveAllResponse`). -/
structure SaveAllResponse where
  db_key : String
  msg : String
deriving DecidableEq, Repr

/-- Modelled from the spec: the cap on the recent-file list
("most-recent-first, no duplicates, capped length", suggested cap 10). -/
def recentFilesMax : Nat := 10

/-- Modelled from the spec: `preference::Preference` (not in the given
source set) — the user preferences, of which the claims only concern the
ordered list of recently opened database identifiers (string paths). -/
structure Preference where
  recentFiles : List String
deriving DecidableEq, Repr

/-- Modelled from the spec: `Preference::add_recent_file(path)` inserts
`path` at the front of the recent list, removing any prior occurrence of
the same path, and caps the list at a maximum length (oldest evicted). -/
def Preference.add_recent_file (p : Preference) (path : String) : Preference :=
  { recentFiles := (path :: p.recentFiles.filter (fun q => q != path)).take recentFilesMax }

/-- Modelled from the spec: `Preference::remove_recent_file(path)` removes
all occurrences of `path` from the recent list. -/
def Preference.remove_recent_file (p : Preference) (path : String) : Preference :=
  { recentFiles := p.recentFiles.filter (fun q => q != path) }

/-- `utils::AppState`: the process-wide container holding the `Preference`
behind a mutual-exclusion lock.  The lock itself is reflected in the event
traces of the commands, not in the state value. -/
structure AppState where
  preference : Preference
deriving DecidableEq, Repr

/-- Modelled from the spec: `AppState::get_backup_file(db_key)` — a pure
derivation from a database key to an optional backup file path (fixed
suffix convention; `none` when the key denotes no writable location,
modelled here as the empty key).  It never mutates any state. -/
def get_backup_file (dbKey : String) : Option String :=
  if dbKey.isEmpty then none else some (dbKey ++ ".bak")

/-- One observable event of the execution of a command, in program order:
a call into the external database engine, or acquisition/release of the
preference lock. -/
inductive Ev where
  | engineCall
  | lockAcquire
  | lockRelease
deriving DecidableEq, Repr

/-- Outcome of running one dispatcher command: the transport-level result,
the application state after the call, and the ordered event trace. -/
structure CmdOut (α : Type) where
  result : CmdResult α
  state : AppState
  trace : List Ev
deriving Repr

/-- The classification used by `load_kdbx`: the structured engine error is
the file-I/O kind, its top-level message is the load-failure category, and
the underlying cause is not-found.  This inspects the tagged error, never
its flattened string form. -/
def isNotFoundLoadFailure : KpError → Bool
  | .dbFileIoError m ioe =>
      m == "Database file opening failed" && ioe.kind == IoErrorKind.notFound
  | .otherError _ => false

/-- Embedding of `load_kdbx` (commands.rs lines 34-63).  `r` is the outcome
of the engine call `kp_service::load_kdbx(db_file_name, password,
key_file_name)`; the dispatcher then pattern-matches the structured error:
on the load-failure/not-found case it removes the path from the recent list
and returns `Ok(r?)`; otherwise control falls through to `add_recent_file`
followed by `Ok(r?)`. -/
def load_kdbx (db_file_name : String) (r : Except KpError KdbxLoaded)
    (s : AppState) : CmdOut KdbxLoaded :=
  match r with
  | .error (KpError.dbFileIoError m ioe) =>
      if m == "Database file opening failed" && ioe.kind == IoErrorKind.notFound then
        { result := flattenResult (Except.error (KpError.dbFileIoError m ioe)),
          state := { preference := s.preference.remove_recent_file db_file_name },
          trace := [Ev.engineCall, Ev.lockAcquire, Ev.lockRelease] }
      else
        { result := flattenResult (Except.error (KpError.dbFileIoError m ioe)),
          state := { preference := s.preference.add_recent_file db_file_name },
          trace := [Ev.engineCall, Ev.lockAcquire, Ev.lockRelease] }
  | r =>
      { result := flattenResult r,
        state := { preference := s.preference.add_recent_file db_file_name },
        trace := [Ev.engineCall, Ev.lockAcquire, Ev.lockRelease] }

/-- Embedding of `create_kdbx` (commands.rs lines 144-157): the `?` on the
engine call returns the flattened error before any state is touched; on
success the key of the created database is appended to the recent list. -/
def create_kdbx (r : Except KpError KdbxLoaded) (s : AppState) :
    CmdOut KdbxLoaded :=
  match r with
  | .error e =>
      { result := .error e.flatten, state := s, trace := [Ev.engineCall] }
  | .ok v =>
      { result := .ok v,
        state := { preference := s.preference.add_recent_file v.db_key },
        trace := [Ev.engineCall, Ev.lockAcquire, Ev.lockRelease] }

/-- Embedding of `save_as_kdbx` (commands.rs lines 381-395): the `?` on the
engine call returns the flattened error before any state is touched; on
success the new file name is appended to the recent list. -/
def save_as_kdbx (db_file_name : String) (r : Except KpError KdbxLoaded)
    (s : AppState) : CmdOut KdbxLoaded :=
  match r with
  | .error e =>
      { result := .error e.flatten, state := s, trace := [Ev.engineCall] }
  | .ok v =>
      { result := .ok v,
        state := { preference := s.preference.add_recent_file db_file_name },
        trace := [Ev.engineCall, Ev.lockAcquire, Ev.lockRelease] }

/-- Embedding of `save_kdbx` (commands.rs lines 397-408): derives the
backup file name from the database key, then delegates to
`kp_service::save_kdbx_with_backup` (here the opaque `engine`), never
touching the preference state. -/
def save_kdbx (engine : String → Option String → Except KpError KdbxSaved)
    (db_key : String) (s : AppState) : CmdOut KdbxSaved :=
  let backup_file_name := get_backup_file db_key
  { result := flattenResult (engine db_key backup_file_name),
    state := s,
    trace := [Ev.engineCall] }

/-- Embedding of `save_all_modified_dbs` (commands.rs lines 410-424):
pairs every key with its derived backup path, then forwards the whole batch
to `kp_service::save_all_modified_dbs_with_backups` (the opaque `engine`)
in one call and passes its outcome through. -/
def save_all_modified_dbs
    (engine : List (String × Option String) → Except KpError (List SaveAllResponse))
    (db_keys : List String) (s : AppState) : CmdOut (List SaveAllResponse) :=
  let dbs_with_backups := db_keys.map (fun k => (k, get_backup_file k))
  { result := flattenResult (engine dbs_with_backups),
    state := s,
    trace := [Ev.engineCall] }

/-- The list of key/backup pairs `save_all_modified_dbs` hands to the
engine, exposed for the statement of its claim. -/
def save_all_backup_pairs (db_keys : List String) : List (String × Option String) :=
  db_keys.map (fun k => (k, get_backup_file k))

/-- Embedding of `read_app_preference` (commands.rs lines 116-122): locks
the preference, clones it, and returns the clone; the state is untouched
and no engine call occurs. -/
def read_app_preference (s : AppState) : CmdOut Preference :=
  { result := .ok s.preference,
    state := s,
    trace := [Ev.lockAcquire, Ev.lockRelease] }

/-- Embedding of `close_kdbx` (commands.rs lines 426-429): pure
pass-through to the engine, no preference access. -/
def close_kdbx (r : Except KpError Unit) (s : AppState) : CmdOut Unit :=
  { result := flattenResult r, state := s, trace := [Ev.engineCall] }

/-- Embedding of `unlock_kdbx` (commands.rs lines 431-438): pure
pass-through to the engine, no preference access. -/
def unlock_kdbx (r : Except KpError KdbxLoaded) (s : AppState) :
    CmdOut KdbxLoaded :=
  { result := flattenResult r, state := s, trace := [Ev.engineCall] }

/-- Result payload of `search_term` (`kp_service::EntrySearchResult`),
opaque to the dispatcher. -/
structure EntrySearchResult where
  term : String
deriving DecidableEq, Repr

/-- Embedding of `search_term` (commands.rs lines 445-448): pure
pass-through to the engine, no preference access. -/
def search_term (r : Except KpError EntrySearchResult) (s : AppState) :
    CmdOut EntrySearchResult :=
  { result := flattenResult r, state := s, trace := [Ev.engineCall] }

/-- Embedding of `export_as_xml` (commands.rs lines 471-475): pure
pass-through to the engine, no preference access. -/
def export_as_xml (r : Except KpError Unit) (s : AppState) : CmdOut Unit :=
  { result := flattenResult r, state := s, trace := [Ev.engineCall] }

/-- Embedding of the entry/group-level commands (move/remove/update/insert
of entries and groups, history operations, commands.rs lines 159-379): each
is `Ok(kp_service::op(..)?)`, a pure pass-through with no preference
access; they differ only in the engine operation invoked and its payload
type, which the dispatcher treats opaquely. -/
def entry_group_command {α : Type} (r : Except KpError α) (s : AppState) :
    CmdOut α :=
  { result := flattenResult r, state := s, trace := [Ev.engineCall] }

/-- `true` when no engine-call event occurs while the preference lock is
held, scanning the trace with the current lock-nesting depth. -/
def noEngineCallWhileLocked (t : List Ev) : Bool :=
  (t.foldl
    (fun (st : Bool × Nat) e =>
      match e with
      | Ev.lockAcquire => (st.1, st.2 + 1)
      | Ev.lockRelease => (st.1, st.2 - 1)
      | Ev.engineCall => (st.1 && st.2 == 0, st.2))
    (true, 0)).1

/-- Number of lock acquisitions (= number of preference-state side effects
guarded by the lock) in a trace. -/
def lockAcquireCount (t : List Ev) : Nat :=
  t.count Ev.lockAcquire

/-- A concrete application state with an empty recent-file list, used by
witnesses and counterexamples. -/
def s0 : AppState := { preference := { recentFiles := [] } }

/-- A concrete application state whose recent list holds two paths, used by
witnesses and counterexamples. -/
def s1 : AppState :=
  { preference := { recentFiles := ["/a/x.kdbx", "/a/y.kdbx"] } }

/-- A concrete always-succeeding save-all engine used by witnesses: it
reports every handed-over key as saved. -/
def engineW (l : List (String × Option String)) :
    Except KpError (List SaveAllResponse) :=
  Except.ok (l.map (fun p => SaveAllResponse.mk p.1 "saved"))

/-- A concrete always-failing save engine used by witnesses. -/
def engineFailS (_ : String) (_ : Option String) : Except KpError KdbxSaved :=
  Except.error (KpError.otherError "disk full")

/-- A concrete always-failing save-all engine used by witnesses. -/
def engineFailA (_ : List (String × Option String)) :
    Except KpError (List SaveAllResponse) :=
  Except.error (KpError.otherError "disk full")

/-- A concrete state mutation used by witnesses: adds one path to the
recent-file list. -/
def mutateW (s : AppState) : AppState :=
  { preference := s.preference.add_recent_file "/a/x.kdbx" }

/-! ## Helper lemmas -/

/-- A path never occurs in a list filtered on being different from it. -/
theorem not_mem_filter_ne (path : String) (l : List String) :
    path ∉ l.filter (fun q => q != path) := by
  intro h
  have := List.mem_filter.mp h
  simp at this

/-- After `add_recent_file path`, the head of the list is `path`. -/
theorem add_recent_file_head (p : Preference) (path : String) :
    (p.add_recent_file path).recentFiles.head? = some path := by
  simp [Preference.add_recent_file, recentFilesMax]

/-- After `add_recent_file path`, the path occurs exactly once. -/
theorem add_recent_file_count (p : Preference) (path : String) :
    (p.add_recent_file path).recentFiles.count path = 1 := by
  simp only [Preference.add_recent_file, recentFilesMax]
  rw [List.take_succ_cons, List.count_cons_self]
  have h0 : (p.recentFiles.filter (fun q => q != path)).count path = 0 := by
    rw [List.count_eq_zero]
    exact not_mem_filter_ne path p.recentFiles
  have hsub : ((p.recentFiles.filter (fun q => q != path)).take 9).count path ≤
      (p.recentFiles.filter (fun q => q != path)).count path :=
    (List.take_sublist _ _).count_le _
  omega

/-! ## Claims -/

/-- C1 counterexample: with an empty recent list, a load failing with a
wrong-password error (not the not-found/load-failure classification) leaves
the recent-file list changed — the path has been added to it — refuting the
claim that such failures leave the list unchanged. -/
theorem C1_counterexample :
    isNotFoundLoadFailure (KpError.otherError "wrong password") = false ∧
    (load_kdbx "/a/x.kdbx" (Except.error (KpError.otherError "wrong password"))
        s0).state.preference.recentFiles ≠ s0.preference.recentFiles := by
  constructor
  · rfl
  · simp [load_kdbx, s0, Preference.add_recent_file, recentFilesMax]

/-- C1 (amended): for every call to `load_kdbx` whose engine load fails
with any classification other than the not-found/load-failure case, the
failure is propagated to the caller, and the database path is added to the
front of the recent-file list (the same mutation as the success path), so
the list is in general not left unchanged. -/
theorem C1_other_failure_propagates_and_adds (path : String) (e : KpError)
    (s : AppState) (h : isNotFoundLoadFailure e = false) :
    (load_kdbx path (Except.error e) s).result = Except.error e.flatten ∧
    (load_kdbx path (Except.error e) s).state.preference =
      s.preference.add_recent_file path := by
  cases e with
  | dbFileIoError m ioe =>
      simp only [isNotFoundLoadFailure] at h
      simp [load_kdbx, h, flattenResult]
  | otherError m =>
      simp [load_kdbx, flattenResult]

/-- Witness for C1 at a concrete wrong-password failure. -/
theorem C1_witness :
    isNotFoundLoadFailure (KpError.otherError "wrong password") = false ∧
    ((load_kdbx "/a/x.kdbx" (Except.error (KpError.otherError "wrong password"))
        s1).result = Except.error (KpError.otherError "wrong password").flatten ∧
     (load_kdbx "/a/x.kdbx" (Except.error (KpError.otherError "wrong password"))
        s1).state.preference = s1.preference.add_recent_file "/a/x.kdbx") :=
  ⟨rfl, C1_other_failure_propagates_and_adds "/a/x.kdbx"
    (KpError.otherError "wrong password") s1 rfl⟩

/-- C2: a load failing with the file-I/O error whose top-level message is
the load-failure category and whose underlying cause is not-found removes
the database path from the recent-file list (it is absent afterward, no
matter the prior state) and propagates the original failure. -/
theorem C2_notfound_removes_and_propagates (path m : String) (ioe : IoError)
    (s : AppState) (hm : m = "Database file opening failed")
    (hk : ioe.kind = IoErrorKind.notFound) :
    (load_kdbx path (Except.error (KpError.dbFileIoError m ioe)) s).result =
      Except.error (KpError.dbFileIoError m ioe).flatten ∧
    path ∉ (load_kdbx path (Except.error (KpError.dbFileIoError m ioe))
        s).state.preference.recentFiles := by
  subst hm
  constructor
  · simp [load_kdbx, hk, flattenResult]
  · simp [load_kdbx, hk, Preference.remove_recent_file, List.mem_filter]

/-- Witness for C2: a not-found load failure on a path present in the list
leaves the path absent and returns the flattened original error. -/
theorem C2_witness :
    ("Database file opening failed" : String) = "Database file opening failed" ∧
    (IoError.mk IoErrorKind.notFound "No such file or directory").kind =
      IoErrorKind.notFound ∧
    ((load_kdbx "/a/x.kdbx"
        (Except.error (KpError.dbFileIoError "Database file opening failed"
          (IoError.mk IoErrorKind.notFound "No such file or directory"))) s1).result =
      Except.error (KpError.dbFileIoError "Database file opening failed"
        (IoError.mk IoErrorKind.notFound "No such file or directory")).flatten ∧
     "/a/x.kdbx" ∉ (load_kdbx "/a/x.kdbx"
        (Except.error (KpError.dbFileIoError "Database file opening failed"
          (IoError.mk IoErrorKind.notFound "No such file or directory")))
        s1).state.preference.recentFiles) :=
  ⟨rfl, rfl, C2_notfound_removes_and_propagates "/a/x.kdbx"
    "Database file opening failed"
    (IoError.mk IoErrorKind.notFound "No such file or directory") s1 rfl rfl⟩

/-- C3: a successful load returns the success payload of the engine and puts the
database path at the front of the recent-file list with exactly one
occurrence of that path. -/
theorem C3_success_adds_front_and_returns (path : String) (v : KdbxLoaded)
    (s : AppState) :
    (load_kdbx path (Except.ok v) s).result = Except.ok v ∧
    (load_kdbx path (Except.ok v) s).state.preference.recentFiles.head? =
      some path ∧
    (load_kdbx path (Except.ok v) s).state.preference.recentFiles.count path = 1 := by
  refine ⟨rfl, ?_, ?_⟩
  · exact add_recent_file_head s.preference path
  · exact add_recent_file_count s.preference path

/-- C4 counterexample: a corrupt-file error (not the not-found
classification) still triggers a state-mutation side effect in the
dispatcher — the path is added to the recent list — refuting the claim that
no other error kind triggers any state mutation. -/
theorem C4_counterexample :
    isNotFoundLoadFailure (KpError.otherError "corrupt file") = false ∧
    (load_kdbx "/b/z.kdbx" (Except.error (KpError.otherError "corrupt file"))
        s0).state ≠ s0 := by
  constructor
  · rfl
  · intro h
    have := congrArg (fun t => t.preference.recentFiles) h
    simp [load_kdbx, s0, Preference.add_recent_file, recentFilesMax] at this

/-- C4 (amended): removal of the path from the recent-file list is
triggered if and only if the structured engine error is the file-I/O kind
with root cause not-found and the load-failure top-level message; the
classification pattern-matches the structured error (via
`isNotFoundLoadFailure`) and the lossy flattening to the transport string
happens only on the returned result; every other outcome — any other error
kind as well as success — instead triggers the add-to-recent mutation, so
other error kinds do mutate state, just never by removal. -/
theorem C4_removal_iff_notfound_classification (path : String)
    (r : Except KpError KdbxLoaded) (s : AppState) :
    (load_kdbx path r s).state.preference =
      (if (match r with
            | Except.error e => isNotFoundLoadFailure e
            | Except.ok _ => false) then
        s.preference.remove_recent_file path
      else
        s.preference.add_recent_file path) ∧
    (load_kdbx path r s).result = flattenResult r := by
  match r with
  | Except.ok v => exact ⟨rfl, rfl⟩
  | Except.error (KpError.otherError m) => exact ⟨rfl, rfl⟩
  | Except.error (KpError.dbFileIoError m ioe) =>
      by_cases hcond :
          (m == "Database file opening failed" && ioe.kind == IoErrorKind.notFound) = true
      · constructor
        · simp [load_kdbx, isNotFoundLoadFailure, hcond]
        · simp [load_kdbx, hcond]
      · constructor
        · simp [load_kdbx, isNotFoundLoadFailure, hcond]
        · simp [load_kdbx, hcond]

/-- C5: the add-on-success rule holds uniformly for create and save-as
(the key is added, at the front with a single occurrence, exactly when the
engine call succeeds), while plain save, search, export, close and the
entry/group-level pass-through commands leave the whole application state —
recent-file list included — untouched. -/
theorem C5_uniform_add_rule (v : KdbxLoaded) (e : KpError)
    (path db_key : String) (s : AppState)
    (engineS : String → Option String → Except KpError KdbxSaved)
    (rc : Except KpError Unit) (rs : Except KpError EntrySearchResult)
    (rx : Except KpError Unit) :
    (create_kdbx (Except.ok v) s).state.preference =
      s.preference.add_recent_file v.db_key ∧
    (create_kdbx (Except.ok v) s).state.preference.recentFiles.head? =
      some v.db_key ∧
    (create_kdbx (Except.error e) s).state = s ∧
    (save_as_kdbx path (Except.ok v) s).state.preference =
      s.preference.add_recent_file path ∧
    (save_as_kdbx path (Except.ok v) s).state.preference.recentFiles.head? =
      some path ∧
    (save_as_kdbx path (Except.error e) s).state = s ∧
    (save_kdbx engineS db_key s).state = s ∧
    (search_term rs s).state = s ∧
    (export_as_xml rx s).state = s ∧
    (close_kdbx rc s).state = s ∧
    (∀ (α : Type) (r : Except KpError α), (entry_group_command r s).state = s) := by
  refine ⟨rfl, add_recent_file_head s.preference v.db_key, rfl, rfl,
    add_recent_file_head s.preference path, rfl, rfl, rfl, rfl, rfl, ?_⟩
  intro α r
  rfl

/-- C6: `save_all_modified_dbs` pairs every database key with its derived
backup path (first components are exactly the input keys in order, second
components their derived backup paths), hands that whole batch to the
engine, leaves the state untouched, and when the engine returns a per-item
outcome list the command returns that list unchanged. -/
theorem C6_save_all_batches (db_keys : List String) (s : AppState)
    (engine : List (String × Option String) → Except KpError (List SaveAllResponse))
    (out : List SaveAllResponse)
    (hout : engine (save_all_backup_pairs db_keys) = Except.ok out) :
    (save_all_backup_pairs db_keys).map Prod.fst = db_keys ∧
    (save_all_backup_pairs db_keys).map Prod.snd = db_keys.map get_backup_file ∧
    (save_all_modified_dbs engine db_keys s).result =
      flattenResult (engine (save_all_backup_pairs db_keys)) ∧
    (save_all_modified_dbs engine db_keys s).state = s ∧
    (save_all_modified_dbs engine db_keys s).result = Except.ok out := by
  refine ⟨?_, ?_, rfl, rfl, ?_⟩
  · clear hout
    simp only [save_all_backup_pairs]
    induction db_keys with
    | nil => rfl
    | cons a t ih => simpa using ih
  · simp [save_all_backup_pairs, Function.comp]
  · have hres : (save_all_modified_dbs engine db_keys s).result =
        flattenResult (engine (save_all_backup_pairs db_keys)) := rfl
    rw [hres, hout]
    rfl

/-- Witness for C6 on a concrete two-key batch with an engine that succeeds
on exactly that batch. -/
theorem C6_witness :
    engineW (save_all_backup_pairs ["/a/x.kdbx", "/a/y.kdbx"]) =
      Except.ok [SaveAllResponse.mk "/a/x.kdbx" "saved",
        SaveAllResponse.mk "/a/y.kdbx" "saved"] ∧
    ((save_all_backup_pairs ["/a/x.kdbx", "/a/y.kdbx"]).map Prod.fst =
      ["/a/x.kdbx", "/a/y.kdbx"] ∧
     (save_all_backup_pairs ["/a/x.kdbx", "/a/y.kdbx"]).map Prod.snd =
      ["/a/x.kdbx", "/a/y.kdbx"].map get_backup_file ∧
     (save_all_modified_dbs engineW ["/a/x.kdbx", "/a/y.kdbx"] s0).result =
      flattenResult (engineW (save_all_backup_pairs ["/a/x.kdbx", "/a/y.kdbx"])) ∧
     (save_all_modified_dbs engineW ["/a/x.kdbx", "/a/y.kdbx"] s0).state = s0 ∧
     (save_all_modified_dbs engineW ["/a/x.kdbx", "/a/y.kdbx"] s0).result =
      Except.ok [SaveAllResponse.mk "/a/x.kdbx" "saved",
        SaveAllResponse.mk "/a/y.kdbx" "saved"]) :=
  ⟨rfl, C6_save_all_batches ["/a/x.kdbx", "/a/y.kdbx"] s0 engineW
    [SaveAllResponse.mk "/a/x.kdbx" "saved",
      SaveAllResponse.mk "/a/y.kdbx" "saved"] rfl⟩

/-- The transport result of `load_kdbx` is always the flattened engine
outcome, on every branch of the dispatcher. -/
theorem load_kdbx_result_eq (path : String) (r : Except KpError KdbxLoaded)
    (s : AppState) : (load_kdbx path r s).result = flattenResult r := by
  match r with
  | Except.ok v => rfl
  | Except.error (KpError.otherError m) => rfl
  | Except.error (KpError.dbFileIoError m ioe) =>
      by_cases h :
          (m == "Database file opening failed" && ioe.kind == IoErrorKind.notFound) = true
      · simp [load_kdbx, h]
      · simp [load_kdbx, h]

/-- The event trace of `load_kdbx` is the same on every branch: one engine
call, then one lock-guarded mutation. -/
theorem load_kdbx_trace_eq (path : String) (r : Except KpError KdbxLoaded)
    (s : AppState) :
    (load_kdbx path r s).trace = [Ev.engineCall, Ev.lockAcquire, Ev.lockRelease] := by
  match r with
  | Except.ok v => rfl
  | Except.error (KpError.otherError m) => rfl
  | Except.error (KpError.dbFileIoError m ioe) =>
      by_cases h :
          (m == "Database file opening failed" && ioe.kind == IoErrorKind.notFound) = true
      · simp [load_kdbx, h]
      · simp [load_kdbx, h]

/-- C7: every command returns either the typed success payload or a single
flattened string error, an engine failure is always returned to the caller
(never swallowed), and every command performs at most one lock-guarded
state-mutation side effect. -/
theorem C7_errors_never_swallowed (e : KpError) (path db_key : String)
    (s : AppState) (db_keys : List String)
    (engineS : String → Option String → Except KpError KdbxSaved)
    (engineA : List (String × Option String) → Except KpError (List SaveAllResponse))
    (hS : engineS db_key (get_backup_file db_key) = Except.error e)
    (hA : engineA (save_all_backup_pairs db_keys) = Except.error e) :
    (load_kdbx path (Except.error e) s).result = Except.error e.flatten ∧
    (create_kdbx (Except.error e) s).result = Except.error e.flatten ∧
    (save_as_kdbx path (Except.error e) s).result = Except.error e.flatten ∧
    (save_kdbx engineS db_key s).result = Except.error e.flatten ∧
    (save_all_modified_dbs engineA db_keys s).result = Except.error e.flatten ∧
    (close_kdbx (Except.error e) s).result = Except.error e.flatten ∧
    (unlock_kdbx (Except.error e) s).result = Except.error e.flatten ∧
    (search_term (Except.error e) s).result = Except.error e.flatten ∧
    (export_as_xml (Except.error e) s).result = Except.error e.flatten ∧
    (∀ r : Except KpError KdbxLoaded,
      lockAcquireCount (load_kdbx path r s).trace ≤ 1) ∧
    (∀ r : Except KpError KdbxLoaded,
      lockAcquireCount (create_kdbx r s).trace ≤ 1) ∧
    (∀ r : Except KpError KdbxLoaded,
      lockAcquireCount (save_as_kdbx path r s).trace ≤ 1) ∧
    lockAcquireCount (save_kdbx engineS db_key s).trace ≤ 1 ∧
    lockAcquireCount (save_all_modified_dbs engineA db_keys s).trace ≤ 1 ∧
    lockAcquireCount (read_app_preference s).trace ≤ 1 := by
  refine ⟨load_kdbx_result_eq path (Except.error e) s, rfl, rfl, ?_, ?_, rfl, rfl,
    rfl, rfl, ?_, ?_, ?_, ?_, ?_, ?_⟩
  · have hres : (save_kdbx engineS db_key s).result =
        flattenResult (engineS db_key (get_backup_file db_key)) := rfl
    rw [hres, hS]
    rfl
  · have hres : (save_all_modified_dbs engineA db_keys s).result =
        flattenResult (engineA (save_all_backup_pairs db_keys)) := rfl
    rw [hres, hA]
    rfl
  · intro r
    rw [load_kdbx_trace_eq path r s]
    decide
  · intro r
    cases r with
    | error e2 =>
        show lockAcquireCount [Ev.engineCall] ≤ 1
        decide
    | ok v =>
        show lockAcquireCount [Ev.engineCall, Ev.lockAcquire, Ev.lockRelease] ≤ 1
        decide
  · intro r
    cases r with
    | error e2 =>
        show lockAcquireCount [Ev.engineCall] ≤ 1
        decide
    | ok v =>
        show lockAcquireCount [Ev.engineCall, Ev.lockAcquire, Ev.lockRelease] ≤ 1
        decide
  · show lockAcquireCount [Ev.engineCall] ≤ 1
    decide
  · show lockAcquireCount [Ev.engineCall] ≤ 1
    decide
  · show lockAcquireCount [Ev.lockAcquire, Ev.lockRelease] ≤ 1
    decide

/-- Witness for C7 with concrete failing engines and a concrete error. -/
theorem C7_witness :
    engineFailS "/a/x.kdbx" (get_backup_file "/a/x.kdbx") =
      Except.error (KpError.otherError "disk full") ∧
    engineFailA (save_all_backup_pairs ["/a/x.kdbx"]) =
      Except.error (KpError.otherError "disk full") ∧
    ((load_kdbx "/a/y.kdbx"
        (Except.error (KpError.otherError "disk full")) s1).result =
      Except.error (KpError.otherError "disk full").flatten ∧
     (create_kdbx (Except.error (KpError.otherError "disk full")) s1).result =
      Except.error (KpError.otherError "disk full").flatten ∧
     (save_as_kdbx "/a/y.kdbx"
        (Except.error (KpError.otherError "disk full")) s1).result =
      Except.error (KpError.otherError "disk full").flatten ∧
     (save_kdbx engineFailS "/a/x.kdbx" s1).result =
      Except.error (KpError.otherError "disk full").flatten ∧
     (save_all_modified_dbs engineFailA ["/a/x.kdbx"] s1).result =
      Except.error (KpError.otherError "disk full").flatten ∧
     (close_kdbx (Except.error (KpError.otherError "disk full")) s1).result =
      Except.error (KpError.otherError "disk full").flatten ∧
     (unlock_kdbx (Except.error (KpError.otherError "disk full")) s1).result =
      Except.error (KpError.otherError "disk full").flatten ∧
     (search_term (Except.error (KpError.otherError "disk full")) s1).result =
      Except.error (KpError.otherError "disk full").flatten ∧
     (export_as_xml (Except.error (KpError.otherError "disk full")) s1).result =
      Except.error (KpError.otherError "disk full").flatten ∧
     (∀ r : Except KpError KdbxLoaded,
       lockAcquireCount (load_kdbx "/a/y.kdbx" r s1).trace ≤ 1) ∧
     (∀ r : Except KpError KdbxLoaded,
       lockAcquireCount (create_kdbx r s1).trace ≤ 1) ∧
     (∀ r : Except KpError KdbxLoaded,
       lockAcquireCount (save_as_kdbx "/a/y.kdbx" r s1).trace ≤ 1) ∧
     lockAcquireCount (save_kdbx engineFailS "/a/x.kdbx" s1).trace ≤ 1 ∧
     lockAcquireCount (save_all_modified_dbs engineFailA ["/a/x.kdbx"] s1).trace ≤ 1 ∧
     lockAcquireCount (read_app_preference s1).trace ≤ 1) :=
  ⟨rfl, rfl, C7_errors_never_swallowed (KpError.otherError "disk full")
    "/a/y.kdbx" "/a/x.kdbx" s1 ["/a/x.kdbx"] engineFailS engineFailA rfl rfl⟩

/-- C8: `read_app_preference` returns a snapshot — the preference value at
call time — leaving the state untouched; a mutation applied after the call
does not affect the returned value: whenever the mutation changes the
preference, the snapshot differs from the mutated preference. -/
theorem C8_read_pref_snapshot (s : AppState) (f : AppState → AppState)
    (hf : s.preference ≠ (f s).preference) :
    (read_app_preference s).result = Except.ok s.preference ∧
    (read_app_preference s).state = s ∧
    (read_app_preference s).result ≠ Except.ok ((f s).preference) := by
  refine ⟨rfl, rfl, ?_⟩
  intro h
  simp only [read_app_preference] at h
  exact hf (Except.ok.inj h)

/-- Witness for C8 with a concrete state and a concrete later mutation. -/
theorem C8_witness :
    s0.preference ≠ (mutateW s0).preference ∧
    ((read_app_preference s0).result = Except.ok s0.preference ∧
     (read_app_preference s0).state = s0 ∧
     (read_app_preference s0).result ≠ Except.ok ((mutateW s0).preference)) :=
  ⟨by decide, C8_read_pref_snapshot s0 mutateW (by decide)⟩

/-- C9: in no dispatcher command does an engine call happen while the
preference lock is held — the engine call completes before the lock is
acquired, or no lock is taken at all. -/
theorem C9_no_engine_call_under_lock :
    (∀ (path : String) (r : Except KpError KdbxLoaded) (s : AppState),
      noEngineCallWhileLocked (load_kdbx path r s).trace = true) ∧
    (∀ (r : Except KpError KdbxLoaded) (s : AppState),
      noEngineCallWhileLocked (create_kdbx r s).trace = true) ∧
    (∀ (path : String) (r : Except KpError KdbxLoaded) (s : AppState),
      noEngineCallWhileLocked (save_as_kdbx path r s).trace = true) ∧
    (∀ (engineS : String → Option String → Except KpError KdbxSaved)
      (db_key : String) (s : AppState),
      noEngineCallWhileLocked (save_kdbx engineS db_key s).trace = true) ∧
    (∀ (engineA : List (String × Option String) →
        Except KpError (List SaveAllResponse))
      (db_keys : List String) (s : AppState),
      noEngineCallWhileLocked (save_all_modified_dbs engineA db_keys s).trace = true) ∧
    (∀ s : AppState,
      noEngineCallWhileLocked (read_app_preference s).trace = true) ∧
    (∀ (s : AppState) (r : Except KpError Unit),
      noEngineCallWhileLocked (close_kdbx r s).trace = true) ∧
    (∀ (s : AppState) (r : Except KpError KdbxLoaded),
      noEngineCallWhileLocked (unlock_kdbx r s).trace = true) ∧
    (∀ (s : AppState) (r : Except KpError EntrySearchResult),
      noEngineCallWhileLocked (search_term r s).trace = true) ∧
    (∀ (s : AppState) (r : Except KpError Unit),
      noEngineCallWhileLocked (export_as_xml r s).trace = true) ∧
    (∀ (α : Type) (r : Except KpError α) (s : AppState),
      noEngineCallWhileLocked (entry_group_command r s).trace = true) := by
  refine ⟨?_, ?_, ?_, ?_, ?_, ?_, ?_, ?_, ?_, ?_, ?_⟩
  · intro path r s
    rw [load_kdbx_trace_eq path r s]
    decide
  · intro r s
    cases r with
    | error e =>
        show noEngineCallWhileLocked [Ev.engineCall] = true
        decide
    | ok v =>
        show noEngineCallWhileLocked
          [Ev.engineCall, Ev.lockAcquire, Ev.lockRelease] = true
        decide
  · intro path r s
    cases r with
    | error e =>
        show noEngineCallWhileLocked [Ev.engineCall] = true
        decide
    | ok v =>
        show noEngineCallWhileLocked
          [Ev.engineCall, Ev.lockAcquire, Ev.lockRelease] = true
        decide
  · intro engineS db_key s
    show noEngineCallWhileLocked [Ev.engineCall] = true
    decide
  · intro engineA db_keys s
    show noEngineCallWhileLocked [Ev.engineCall] = true
    decide
  · intro s
    show noEngineCallWhileLocked [Ev.lockAcquire, Ev.lockRelease] = true
    decide
  · intro s r
    show noEngineCallWhileLocked [Ev.engineCall] = true
    decide
  · intro s r
    show noEngineCallWhileLocked [Ev.engineCall] = true
    decide
  · intro s r
    show noEngineCallWhileLocked [Ev.engineCall] = true
    decide
  · intro s r
    show noEngineCallWhileLocked [Ev.engineCall] = true
    decide
  · intro α r s
    rfl

/-- C10: when the engine call inside `create_kdbx` or `save_as_kdbx`
fails, the command returns the flattened error with the whole application
state — the recent-file list included — unchanged. -/
theorem C10_create_saveas_failure_frame (e : KpError) (path : String)
    (s : AppState) :
    (create_kdbx (Except.error e) s).state = s ∧
    (create_kdbx (Except.error e) s).result = Except.error e.flatten ∧
    (save_as_kdbx path (Except.error e) s).state = s ∧
    (save_as_kdbx path (Except.error e) s).result = Except.error e.flatten :=
  ⟨rfl, rfl, rfl, rfl⟩
